import Mathlib

/-!
Shallow embedding of the perfetto UI plugin fragments:
  * `dev.perfetto.CoreCommands/index.ts` (command registration, sidebar
    toggle, pan-to-timestamp prompt handling),
  * the DebugTrack plugin module (track / details-panel registration),
  * `JavaOomActivity.java` (the OOM instrumentation test activity),
together with spec-modelled components (`QueryResultValidator`,
`TrackDataCache`) whose implementations are referenced but not present in
the given sources.

Host side effects (window.prompt, window.alert, ctx.timeline.panToTimestamp,
ctx.sidebar.hide/show, ctx.tabs.openQuery, pin/unpin) are modelled as an
explicit `Effect` trace; a thrown JS `Error` is an `Except.error` carrying
the message.
-/

/-- Identifier of one of the six SQL query constants declared at the top of
`dev.perfetto.CoreCommands/index.ts`. The claims under verification concern
command registration metadata, not the SQL text, so the queries are
identified by their constant names. -/
inductive QueryId where
  | SQL_STATS
  | ALL_PROCESSES_QUERY
  | CPU_TIME_FOR_PROCESSES
  | CYCLES_PER_P_STATE_PER_CPU
  | CPU_TIME_BY_CPU_BY_PROCESS
  | HEAP_GRAPH_BYTES_PER_TYPE
deriving DecidableEq, Repr

/-- Observable host-side effects performed by the plugin callbacks. -/
inductive Effect where
  /-- `window.prompt(message)` was shown. -/
  | prompt (message : String)
  /-- `window.alert(message)` was shown. -/
  | alert (message : String)
  /-- `ctx.timeline.panToTimestamp(ts)` was called. -/
  | panTo (ts : Int)
  /-- `ctx.tabs.openQuery(query, title)` was called. -/
  | openQueryTab (query : QueryId) (title : String)
  /-- `ctx.sidebar.hide()` was called. -/
  | sidebarHide
  /-- `ctx.sidebar.show()` was called. -/
  | sidebarShow
  /-- `ctx.timeline.pinTracksByPredicate` with the ftrace name test. -/
  | pinFtrace
  /-- `ctx.timeline.unpinTracksByPredicate` with the constant-true test. -/
  | unpinAll
deriving DecidableEq, Repr

/-- The JavaScript values an `unknown`-typed command argument can take in
this model: enough to distinguish `undefined`, `null`, bigints and
non-bigint defined values. -/
inductive JsValue where
  | undef
  | nullv
  | bigint (n : Int)
  | str (s : String)
  | num (n : Int)
  | boolv (b : Bool)
deriving DecidableEq, Repr

/-- `exists` from `src/base/utils.ts`: true iff the value is neither
`undefined` nor `null`. -/
def jsExists : JsValue → Bool
  | JsValue.undef => false
  | JsValue.nullv => false
  | _ => true

/-- Stringification used by the template literal in the thrown error
message. -/
def jsDisplay : JsValue → String
  | JsValue.undef => "undefined"
  | JsValue.nullv => "null"
  | JsValue.bigint n => toString n
  | JsValue.str s => s
  | JsValue.num n => toString n
  | JsValue.boolv b => toString b

/-- `Time.fromRaw` brands a raw bigint as a timestamp; on the value level it
is the identity. -/
def Time.fromRaw (t : Int) : Int := t

/-- Whitespace characters trimmed by the JS `BigInt(string)` conversion. -/
def isWsChar (c : Char) : Bool :=
  c = ' ' || c = '\t' || c = '\n' || c = '\r'

/-- Value of a digit character, hex digits included (`none` for a
non-digit). -/
def digitVal : Char → Option Nat
  | c =>
    if '0' ≤ c ∧ c ≤ '9' then some (c.toNat - Char.toNat '0')
    else if 'a' ≤ c ∧ c ≤ 'f' then some (c.toNat - Char.toNat 'a' + 10)
    else if 'A' ≤ c ∧ c ≤ 'F' then some (c.toNat - Char.toNat 'A' + 10)
    else none

/-- Accumulating digit-sequence parser: fails on any character that is not a
digit of the given base. -/
def parseDigitsAux (base : Nat) : List Char → Nat → Option Nat
  | [], acc => some acc
  | c :: cs, acc =>
    match digitVal c with
    | some d => if d < base then parseDigitsAux base cs (acc * base + d) else none
    | none => none

/-- A non-empty digit sequence in the given base, else `none`. -/
def parseDigits (base : Nat) (cs : List Char) : Option Nat :=
  match cs with
  | [] => none
  | _ => parseDigitsAux base cs 0

/-- The character list of a string with surrounding whitespace removed, as
the JS `BigInt(string)` conversion does before parsing. -/
def jsTrimChars (s : String) : List Char :=
  ((s.data.dropWhile isWsChar).reverse.dropWhile isWsChar).reverse

/-- JS `BigInt(string)`: `some` the parsed integer, `none` when the
conversion throws a `SyntaxError`. An empty (or all-whitespace) string
converts to `0n`; a sign is allowed only for decimal literals; `0x`/`0o`/`0b`
prefixes select the base. -/
def jsBigIntOfString (s : String) : Option Int :=
  match jsTrimChars s with
  | [] => some 0
  | '+' :: rest => (parseDigits 10 rest).map (fun n => (n : Int))
  | '-' :: rest => (parseDigits 10 rest).map (fun n => -(n : Int))
  | '0' :: 'x' :: rest => (parseDigits 16 rest).map (fun n => (n : Int))
  | '0' :: 'X' :: rest => (parseDigits 16 rest).map (fun n => (n : Int))
  | '0' :: 'o' :: rest => (parseDigits 8 rest).map (fun n => (n : Int))
  | '0' :: 'O' :: rest => (parseDigits 8 rest).map (fun n => (n : Int))
  | '0' :: 'b' :: rest => (parseDigits 2 rest).map (fun n => (n : Int))
  | '0' :: 'B' :: rest => (parseDigits 2 rest).map (fun n => (n : Int))
  | cs => (parseDigits 10 cs).map (fun n => (n : Int))

/-- `promptForTimestamp(message)` from `dev.perfetto.CoreCommands/index.ts`.
`userInput` is what `window.prompt` returns: `none` models the user
cancelling (JS `null`), `some s` models the entered string. Returns the
parsed timestamp (or `none`) together with the trace of effects. -/
def promptForTimestamp (message : String) (userInput : Option String) :
    Option Int × List Effect :=
  match userInput with
  | none => (none, [Effect.prompt message])
  | some tsStr =>
    match jsBigIntOfString tsStr with
    | some n => (some (Time.fromRaw n), [Effect.prompt message])
    | none =>
      (none, [Effect.prompt message, Effect.alert (tsStr ++ " is not an integer")])

/-- The `PanToTimestamp` command callback. `tsRaw` is the `unknown`
argument; `userInput` is what `window.prompt` would return if the callback
prompts. The result is the effect trace paired with normal return
(`Except.ok`) or a thrown `Error` message (`Except.error`). -/
def panToTimestampCallback (tsRaw : JsValue) (userInput : Option String) :
    List Effect × Except String Unit :=
  if jsExists tsRaw then
    match tsRaw with
    | JsValue.bigint n => ([Effect.panTo (Time.fromRaw n)], Except.ok ())
    | v => ([], Except.error (jsDisplay v ++ " is not a bigint"))
  else
    match promptForTimestamp ("Enter a timestamp") userInput with
    | (some ts, effs) => (effs ++ [Effect.panTo (Time.fromRaw ts)], Except.ok ())
    | (none, effs) => (effs, Except.ok ())

/-- The `ToggleLeftSidebar` command callback, given the current value of
`ctx.sidebar.isVisible()`. -/
def toggleLeftSidebarCallback (visible : Bool) : Effect :=
  if visible then Effect.sidebarHide else Effect.sidebarShow

/-- The host sidebar state transition induced by an effect. -/
def applySidebarEffect (visible : Bool) : Effect → Bool
  | Effect.sidebarHide => false
  | Effect.sidebarShow => true
  | _ => visible

/-- The shape of one of the callbacks handed to `ctx.registerCommand`:
which host operation the callback performs when invoked. -/
inductive CmdCallback where
  | toggleSidebar
  | openQuery (query : QueryId) (title : String)
  | pinFtraceTracks
  | unpinAllTracks
  | panToTimestampCmd
deriving DecidableEq, Repr

/-- One argument record of a `ctx.registerCommand` call: `id`, `name` and
`callback` are always supplied; `defaultHotkey` is optional. -/
structure Command where
  id : String
  name : String
  callback : CmdCallback
  defaultHotkey : Option String
deriving DecidableEq, Repr

/-- The sequence of `ctx.registerCommand` argument records executed by
`coreCommands.onTraceLoad`, in source order. -/
def coreCommandsOnTraceLoad : List Command :=
  [ { id := "dev.perfetto.CoreCommands#ToggleLeftSidebar",
      name := "Toggle left sidebar",
      callback := CmdCallback.toggleSidebar,
      defaultHotkey := some ("!Mod+B") },
    { id := "dev.perfetto.CoreCommands#RunQueryAllProcesses",
      name := "Run query: all processes",
      callback := CmdCallback.openQuery QueryId.ALL_PROCESSES_QUERY ("All Processes"),
      defaultHotkey := none },
    { id := "dev.perfetto.CoreCommands#RunQueryCpuTimeByProcess",
      name := "Run query: CPU time by process",
      callback := CmdCallback.openQuery QueryId.CPU_TIME_FOR_PROCESSES ("CPU time by process"),
      defaultHotkey := none },
    { id := "dev.perfetto.CoreCommands#RunQueryCyclesByStateByCpu",
      name := "Run query: cycles by p-state by CPU",
      callback := CmdCallback.openQuery QueryId.CYCLES_PER_P_STATE_PER_CPU ("Cycles by p-state by CPU"),
      defaultHotkey := none },
    { id := "dev.perfetto.CoreCommands#RunQueryCyclesByCpuByProcess",
      name := "Run query: CPU Time by CPU by process",
      callback := CmdCallback.openQuery QueryId.CPU_TIME_BY_CPU_BY_PROCESS ("CPU Time by CPU by process"),
      defaultHotkey := none },
    { id := "dev.perfetto.CoreCommands#RunQueryHeapGraphBytesPerType",
      name := "Run query: heap graph bytes per type",
      callback := CmdCallback.openQuery QueryId.HEAP_GRAPH_BYTES_PER_TYPE ("Heap graph bytes per type"),
      defaultHotkey := none },
    { id := "dev.perfetto.CoreCommands#DebugSqlPerformance",
      name := "Debug SQL performance",
      callback := CmdCallback.openQuery QueryId.SQL_STATS ("Recent SQL queries"),
      defaultHotkey := none },
    { id := "dev.perfetto.CoreCommands#PinFtraceTracks",
      name := "Pin ftrace tracks",
      callback := CmdCallback.pinFtraceTracks,
      defaultHotkey := none },
    { id := "dev.perfetto.CoreCommands#UnpinAllTracks",
      name := "Unpin all tracks",
      callback := CmdCallback.unpinAllTracks,
      defaultHotkey := none },
    { id := "dev.perfetto.CoreCommands#PanToTimestamp",
      name := "Pan To Timestamp",
      callback := CmdCallback.panToTimestampCmd,
      defaultHotkey := none } ]

/-- The common namespace string of the CoreCommands command ids. -/
def coreCommandsIdNamespace : String := "dev.perfetto.CoreCommands#"

/-- Boolean string comparison: `p` is an initial segment of `s`. -/
def strStartsWith (p s : String) : Bool := List.isPrefixOf p.data s.data

/-- Which kind of track renderer factory was handed to `ctx.registerTrack`
by the DebugTrack plugin: `slice` is `(trackCtx) => new DebugTrackV2(...)`
and `counter` is `(trackCtx) => new DebugCounterTrack(...)`. -/
inductive TrackKind where
  | slice
  | counter
deriving DecidableEq, Repr

/-- One host registration performed by `DebugTrackPlugin.onTraceLoad`. -/
inductive Registration where
  | track (uri : String) (kind : TrackKind)
  | detailsPanel
deriving DecidableEq, Repr

/-- `DEBUG_COUNTER_TRACK_URI` exported by the DebugTrack plugin module. -/
def DEBUG_COUNTER_TRACK_URI : String := "perfetto.DebugCounter"

/-- The sequence of registrations performed by
`DebugTrackPlugin.onTraceLoad`, in source order. `debugSliceTrackUri` is the
value of the imported constant `DEBUG_SLICE_TRACK_URI`, whose defining
module (`frontend/debug_tracks`) is not among the given sources. -/
def debugTrackOnTraceLoad (debugSliceTrackUri : String) : List Registration :=
  [ Registration.track debugSliceTrackUri TrackKind.slice,
    Registration.detailsPanel,
    Registration.track DEBUG_COUNTER_TRACK_URI TrackKind.counter ]

/-- The track URIs of a registration list, in order. -/
def registeredTrackUris (regs : List Registration) : List String :=
  regs.filterMap (fun r =>
    match r with
    | Registration.track u _ => some u
    | Registration.detailsPanel => none)

/-- The opaque payload carried by a generic-slice details-panel
configuration (`GenericSliceDetailsTabConfig`). -/
structure GenericSliceDetailsTabConfig where
  payload : String
deriving DecidableEq, Repr

/-- A `detailsPanelConfig` field of a selection: a `kind` discriminant plus
the kind-specific configuration object. -/
structure DetailsPanelConfig where
  kind : String
  config : GenericSliceDetailsTabConfig
deriving DecidableEq, Repr

/-- A selection event as consumed by the registered details-panel factory:
a `kind` discriminant and, for generic-slice selections, a details-panel
configuration. -/
structure Selection where
  kind : String
  detailsPanelConfig : DetailsPanelConfig
deriving DecidableEq, Repr

/-- The tab object built by `new DebugSliceDetailsTab({config, engine,
uuid})` (the engine handle is host state and carries no data here). -/
structure DebugSliceDetailsTab where
  config : GenericSliceDetailsTabConfig
  uuid : String
deriving DecidableEq, Repr

/-- The `tabFactory` closure passed to `BottomTabToSCSAdapter` in
`DebugTrackPlugin.onTraceLoad`. `debugSliceDetailsTabKind` is the static
`DebugSliceDetailsTab.kind` string (its defining module is not among the
given sources); `uuid` is the fresh `uuidv4()` value. -/
def tabFactory (debugSliceDetailsTabKind : String) (uuid : String)
    (selection : Selection) : Option DebugSliceDetailsTab :=
  if selection.kind = "GENERIC_SLICE" then
    if selection.detailsPanelConfig.kind = debugSliceDetailsTabKind then
      some { config := selection.detailsPanelConfig.config, uuid := uuid }
    else none
  else none

/-- `Integer.MAX_VALUE` in Java. -/
def INTEGER_MAX_VALUE : Nat := 2147483647

/-- The Java errors relevant to `JavaOomActivity`. -/
inductive JavaError where
  | outOfMemoryError
deriving DecidableEq, Repr

/-- `new byte[size]` under `heapAvail` bytes of available heap: succeeds or
throws `OutOfMemoryError`. -/
def allocByteArray (heapAvail size : Nat) : Except JavaError Unit :=
  if size ≤ heapAvail then Except.ok () else Except.error JavaError.outOfMemoryError

/-- The body of the background thread started in `JavaOomActivity.onCreate`:
`try { byte[] alloc = new byte[Integer.MAX_VALUE]; return; } catch
(OutOfMemoryError e) {}` — the catch block is empty, so the body returns
normally whether or not the allocation throws. -/
def oomThreadBody (heapAvail : Nat) : Except JavaError Unit :=
  match allocByteArray heapAvail INTEGER_MAX_VALUE with
  | Except.ok _ => Except.ok ()
  | Except.error JavaError.outOfMemoryError => Except.ok ()

/-- `JavaOomActivity.onCreate`: calls `super.onCreate`, starts the
background thread, and returns. The first component is `onCreate`'s own
outcome; the second is the eventual outcome of the spawned thread's body. -/
def JavaOomActivity.onCreate (heapAvail : Nat) :
    Except JavaError Unit × Except JavaError Unit :=
  (Except.ok (), oomThreadBody heapAvail)

/-- A slice-track query result row (`ts`, `dur`, `name`), per §3 of the
spec. -/
structure SliceRow where
  ts : Int
  dur : Int
  name : String
deriving DecidableEq, Repr

/-- Modelled from the spec: §4.1 `QueryResultValidator` for slice tracks
(the validator implementation is not among the given sources). Walks the
rows from index `i`: a row with `dur < 0` is rejected and its index
recorded; every other row is kept unchanged, in order. Returns
(kept rows, indices of rejected rows). -/
def validateSliceRowsFrom : List SliceRow → Nat → List SliceRow × List Nat
  | [], _ => ([], [])
  | r :: rs, i =>
    let rest := validateSliceRowsFrom rs (i + 1)
    if r.dur < 0 then (rest.1, i :: rest.2) else (r :: rest.1, rest.2)

/-- The caller-chosen policy for rows that fail validation (§4.1). -/
inductive ValidationPolicy where
  | skipAndLog
  | failWindow
deriving DecidableEq, Repr

/-- The default policy: skip the offending rows and log them (§4.1, §7). -/
def defaultValidationPolicy : ValidationPolicy := ValidationPolicy.skipAndLog

/-- Modelled from the spec: §4.1 `validate(rows, kind)` for the slice kind.
Under `skipAndLog` the flagged rows are excluded and their indices
reported alongside the kept rows; under `failWindow` any flagged row fails
the whole result. -/
def validateSlices (policy : ValidationPolicy) (rows : List SliceRow) :
    Except (List Nat) (List SliceRow × List Nat) :=
  let r := validateSliceRowsFrom rows 0
  match policy with
  | ValidationPolicy.skipAndLog => Except.ok r
  | ValidationPolicy.failWindow =>
    if r.2.isEmpty then Except.ok r else Except.error r.2

/-- The per-key state of the `TrackDataCache`: the id of the latest issued
fetch request for this key, and the committed result tagged with the id of
the request that produced it. -/
structure CacheState (α : Type) where
  latest : Option Nat
  cached : Option (Nat × α)
deriving DecidableEq, Repr

/-- An event on one cache key: a fetch request being issued, or a fetch
completing with its data. -/
inductive CacheEvent (α : Type) where
  | issue (reqId : Nat)
  | complete (reqId : Nat) (data : α)
deriving DecidableEq, Repr

/-- Modelled from the spec: §4.2/§5 `TrackDataCache` commit discipline (the
cache implementation is not among the given sources). Issuing a fetch makes
it the latest in-flight request for the key; a completion commits its data
only if its request is still the latest, otherwise it is discarded. -/
def cacheStep {α : Type} (s : CacheState α) : CacheEvent α → CacheState α
  | CacheEvent.issue reqId => { latest := some reqId, cached := s.cached }
  | CacheEvent.complete reqId d =>
    if s.latest = some reqId then { latest := s.latest, cached := some (reqId, d) }
    else s

/-- Run a sequence of cache events from a state. -/
def cacheRun {α : Type} (s : CacheState α) (evs : List (CacheEvent α)) :
    CacheState α :=
  evs.foldl cacheStep s

/-- Helper: `validateSliceRowsFrom rows i` keeps exactly the rows with
`dur ≥ 0`, unchanged and in order, and flags exactly the (`i`-based)
indices of the rows with `dur < 0`. -/
theorem validateSliceRowsFrom_eq (rows : List SliceRow) (i : Nat) :
    validateSliceRowsFrom rows i =
      (rows.filter (fun r => decide (0 ≤ r.dur)),
       ((rows.enumFrom i).filter (fun p => decide (p.2.dur < 0))).map Prod.fst) := by
  induction rows generalizing i with
  | nil => rfl
  | cons r rs ih =>
    simp only [validateSliceRowsFrom, ih (i + 1), List.enumFrom, List.filter_cons]
    by_cases hdur : r.dur < 0
    · simp [hdur, not_le.mpr hdur]
    · simp [hdur, not_lt.mp hdur]

/-- C1: for every string entered at the Pan To Timestamp prompt on which the
BigInt conversion throws, `promptForTimestamp` shows the prompt and an alert
naming the bad input and returns `undefined`; the command callback then
performs no pan. -/
theorem promptForTimestamp_nonInteger_alert_noPan (s msg : String)
    (hbad : jsBigIntOfString s = none) :
    promptForTimestamp msg (some s) =
      (none, [Effect.prompt msg, Effect.alert (s ++ " is not an integer")]) ∧
    panToTimestampCallback JsValue.undef (some s) =
      ([Effect.prompt ("Enter a timestamp"),
        Effect.alert (s ++ " is not an integer")], Except.ok ()) ∧
    ∀ t, Effect.panTo t ∉ (panToTimestampCallback JsValue.undef (some s)).1 := by
  refine ⟨?_, ?_, ?_⟩ <;>
    simp [promptForTimestamp, panToTimestampCallback, jsExists, hbad]

/-- C1 witness: the concrete input `abc` fails the BigInt conversion and the
prompt flow alerts and returns no timestamp. -/
theorem promptForTimestamp_nonInteger_alert_noPan_witness :
    jsBigIntOfString ("abc") = none ∧
    promptForTimestamp ("Enter a timestamp") (some ("abc")) =
      (none, [Effect.prompt ("Enter a timestamp"),
              Effect.alert ("abc is not an integer")]) :=
  ⟨by decide,
   (promptForTimestamp_nonInteger_alert_noPan ("abc") ("Enter a timestamp")
      (by decide)).1⟩

/-- C10: cancelling the prompt (window.prompt returns null) yields
`undefined` with no alert shown, and the command callback performs no pan:
cancellation is silent. -/
theorem promptForTimestamp_cancel_silent (msg : String) :
    promptForTimestamp msg none = (none, [Effect.prompt msg]) ∧
    panToTimestampCallback JsValue.undef none =
      ([Effect.prompt ("Enter a timestamp")], Except.ok ()) ∧
    (∀ m, Effect.alert m ∉ (panToTimestampCallback JsValue.undef none).1) ∧
    (∀ t, Effect.panTo t ∉ (panToTimestampCallback JsValue.undef none).1) := by
  refine ⟨rfl, ?_, ?_, ?_⟩ <;>
    simp [promptForTimestamp, panToTimestampCallback, jsExists]

/-- C8: a defined, non-bigint argument makes the Pan To Timestamp callback
throw an Error stating the value is not a bigint, with no pan performed; a
bigint argument pans to it without prompting. -/
theorem panToTimestamp_nonBigint_throws (v : JsValue) (input : Option String)
    (hdef : jsExists v = true) (hnb : ∀ n, v ≠ JsValue.bigint n) :
    panToTimestampCallback v input =
      ([], Except.error (jsDisplay v ++ " is not a bigint")) ∧
    ∀ n inp, panToTimestampCallback (JsValue.bigint n) inp =
      ([Effect.panTo n], Except.ok ()) := by
  constructor
  · cases v with
    | undef => simp [jsExists] at hdef
    | nullv => simp [jsExists] at hdef
    | bigint n => exact absurd rfl (hnb n)
    | str s => simp [panToTimestampCallback, jsExists]
    | num n => simp [panToTimestampCallback, jsExists]
    | boolv b => simp [panToTimestampCallback, jsExists]
  · intro n inp
    simp [panToTimestampCallback, jsExists, Time.fromRaw]

/-- C8 witness: the concrete string value `xyz` is defined and not a bigint,
and the callback throws with no effects. -/
theorem panToTimestamp_nonBigint_throws_witness :
    jsExists (JsValue.str ("xyz")) = true ∧
    panToTimestampCallback (JsValue.str ("xyz")) none =
      ([], Except.error ("xyz is not a bigint")) :=
  ⟨rfl,
   by
    have hthrow := panToTimestamp_nonBigint_throws (JsValue.str ("xyz")) none rfl
      (by intro n heq; cases heq)
    simpa using hthrow.1⟩

/-- C5: the Toggle left sidebar callback calls hide when the sidebar is
visible and show otherwise, inverting the sidebar visibility on each
invocation. -/
theorem toggleLeftSidebar_inverts :
    toggleLeftSidebarCallback true = Effect.sidebarHide ∧
    toggleLeftSidebarCallback false = Effect.sidebarShow ∧
    ∀ b, applySidebarEffect b (toggleLeftSidebarCallback b) = !b := by
  refine ⟨rfl, rfl, ?_⟩
  intro b
  cases b <;> rfl

/-- C9 counterexample: `coreCommands.onTraceLoad` registers ten commands,
not nine as the claim states. -/
theorem coreCommands_count_is_ten_not_nine :
    coreCommandsOnTraceLoad.length = 10 ∧
    ¬ (coreCommandsOnTraceLoad.length = 9) := by decide

/-- C9 (amended to ten): the ten command ids registered by the CoreCommands
plugin are pairwise distinct, every one begins with
`dev.perfetto.CoreCommands#`, every registration supplies an id, a name and
a callback, and exactly one registration (ToggleLeftSidebar) supplies a
defaultHotkey. -/
theorem coreCommands_ten_ids_distinct_qualified :
    coreCommandsOnTraceLoad.length = 10 ∧
    (coreCommandsOnTraceLoad.map Command.id).Nodup ∧
    coreCommandsOnTraceLoad.all
      (fun c => strStartsWith coreCommandsIdNamespace c.id) = true ∧
    coreCommandsOnTraceLoad.all
      (fun c => !c.id.isEmpty && !c.name.isEmpty) = true ∧
    coreCommandsOnTraceLoad.countP (fun c => c.defaultHotkey.isSome) = 1 ∧
    (coreCommandsOnTraceLoad.filter (fun c => c.defaultHotkey.isSome)).map
        Command.id = ["dev.perfetto.CoreCommands#ToggleLeftSidebar"] := by
  refine ⟨rfl, ?_, ?_, ?_, ?_, ?_⟩ <;> decide

/-- C4: the registered details-panel tab factory produces a tab exactly for
selections of kind GENERIC_SLICE whose details-panel config kind equals
`DebugSliceDetailsTab.kind`; every other selection yields none. -/
theorem tabFactory_some_iff (dk u : String) (sel : Selection) :
    (tabFactory dk u sel).isSome = true ↔
      (sel.kind = "GENERIC_SLICE" ∧ sel.detailsPanelConfig.kind = dk) := by
  unfold tabFactory
  by_cases h1 : sel.kind = "GENERIC_SLICE" <;>
    by_cases h2 : sel.detailsPanelConfig.kind = dk <;>
      simp [h1, h2]

/-- C7: `DebugTrackPlugin.onTraceLoad` registers exactly two track factories
under two distinct URIs — the imported slice-track URI and
`perfetto.DebugCounter` — and exactly one details panel, each track factory
keyed by its URI. -/
theorem debugTrackPlugin_registers_two_tracks_one_panel (u : String)
    (hdist : u ≠ DEBUG_COUNTER_TRACK_URI) :
    registeredTrackUris (debugTrackOnTraceLoad u) = [u, DEBUG_COUNTER_TRACK_URI] ∧
    (registeredTrackUris (debugTrackOnTraceLoad u)).Nodup ∧
    (debugTrackOnTraceLoad u).countP
      (fun r => decide (r = Registration.detailsPanel)) = 1 ∧
    Registration.track u TrackKind.slice ∈ debugTrackOnTraceLoad u ∧
    Registration.track DEBUG_COUNTER_TRACK_URI TrackKind.counter ∈
      debugTrackOnTraceLoad u := by
  refine ⟨rfl, ?_, ?_, ?_, ?_⟩ <;>
    simp [debugTrackOnTraceLoad, registeredTrackUris, hdist]

/-- C7 witness: with a concrete slice-track URI distinct from the counter
URI, the registered track URIs are the two distinct URIs. -/
theorem debugTrackPlugin_registers_witness :
    ("perfetto.DebugSliceTrack" : String) ≠ DEBUG_COUNTER_TRACK_URI ∧
    registeredTrackUris (debugTrackOnTraceLoad ("perfetto.DebugSliceTrack")) =
      ["perfetto.DebugSliceTrack", DEBUG_COUNTER_TRACK_URI] :=
  ⟨by decide,
   (debugTrackPlugin_registers_two_tracks_one_panel ("perfetto.DebugSliceTrack")
      (by decide)).1⟩

/-- C6: with less heap available than `Integer.MAX_VALUE` bytes, the
allocation in `JavaOomActivity`'s background thread throws
`OutOfMemoryError`, the thread body catches it and returns normally, and
`onCreate` itself always returns normally. -/
theorem javaOomActivity_oom_caught (heapAvail : Nat)
    (hsmall : heapAvail < INTEGER_MAX_VALUE) :
    allocByteArray heapAvail INTEGER_MAX_VALUE =
      Except.error JavaError.outOfMemoryError ∧
    oomThreadBody heapAvail = Except.ok () ∧
    (JavaOomActivity.onCreate heapAvail).1 = Except.ok () ∧
    ∀ heap2, (JavaOomActivity.onCreate heap2).1 = Except.ok () := by
  have halloc : allocByteArray heapAvail INTEGER_MAX_VALUE =
      Except.error JavaError.outOfMemoryError := by
    unfold allocByteArray
    rw [if_neg (by omega)]
  refine ⟨halloc, ?_, rfl, fun _ => rfl⟩
  unfold oomThreadBody
  rw [halloc]

/-- C6 witness: with zero heap the allocation throws and the thread body
still returns normally. -/
theorem javaOomActivity_oom_caught_witness :
    (0 : Nat) < INTEGER_MAX_VALUE ∧ oomThreadBody 0 = Except.ok () :=
  ⟨by decide, (javaOomActivity_oom_caught 0 (by decide)).2.1⟩

/-- C3: under the default policy, slice validation flags each row with
`dur < 0` by its row index, excludes exactly those rows, and returns every
row with `dur ≥ 0` unchanged and in order. -/
theorem validateSlices_default_excludes_negative_dur (rows : List SliceRow) :
    validateSlices defaultValidationPolicy rows =
      Except.ok (rows.filter (fun r => decide (0 ≤ r.dur)),
        ((rows.enum.filter (fun p => decide (p.2.dur < 0))).map Prod.fst)) := by
  unfold validateSlices defaultValidationPolicy
  simp [validateSliceRowsFrom_eq, List.enum]

/-- C2: if fetch `a` is issued before fetch `b` for the same cache key and
`b`'s result is committed first, `a`'s late completion is discarded and
never overwrites `b`'s cached result. -/
theorem cache_stale_completion_discarded {α : Type} (s0 : CacheState α)
    (a b : Nat) (da db : α) (hab : a ≠ b) :
    (cacheRun s0 [CacheEvent.issue a, CacheEvent.issue b,
                  CacheEvent.complete b db, CacheEvent.complete a da]).cached =
      some (b, db) := by
  simp [cacheRun, cacheStep, List.foldl, Ne.symm hab]

/-- C2 witness: with request ids 0 and 1 the late completion of request 0 is
discarded and the cache keeps request 1's data. -/
theorem cache_stale_completion_discarded_witness :
    (0 : Nat) ≠ 1 ∧
    (cacheRun ({ latest := none, cached := none } : CacheState Nat)
      [CacheEvent.issue 0, CacheEvent.issue 1,
       CacheEvent.complete 1 9, CacheEvent.complete 0 7]).cached = some (1, 9) :=
  ⟨by decide,
   cache_stale_completion_discarded { latest := none, cached := none } 0 1 7 9
     (by decide)⟩
